import Mathlib

/-!
Shallow embedding of the shared single-audio-element playback coordinator in
`src/components/ui/audio-player.tsx` (the `audioManager` singleton and the
`AudioPlayer` component's handlers), together with proofs about it.

Modelling conventions:
* The shared `HTMLAudioElement` is `ElementState` (`src`, `paused`,
  `currentTime`).  `load()` is modelled as resetting `currentTime` to 0 and
  leaving the element paused.
* The `audioManager` module object is `CoordState` (`activeSource`,
  `activePlayerCallback`).  The element always exists after module-load
  initialization, so `activeElement`/`isInitialized` are not carried around.
* A registered deactivation callback is data (`Callback`): the id of the
  owning player together with the `isPlaying` value the closure captured;
  invoking it replays the body
  `if (!isActive && isPlaying) onPlayPauseRef.current()`.
* Observable actions (callback invocations, `onPlayPause` pause-intent
  signals, `audio.play()` calls, toasts, position updates forwarded to the
  owning UI by `setCurrentTime`/`onTimeUpdate`) are emitted as an `Ev` trace.
* JavaScript `String.prototype.includes` is `strIncludes` (substring
  containment on the character list).
* The outcome of the asynchronous `audio.play()` promise is an explicit
  `PlayResult` argument (resolve, reject with an error name, or a synchronous
  throw caught by the surrounding `try`).
-/

/-- True when the first list is an initial run of the second. -/
def leadMatch : List Char → List Char → Bool
  | [], _ => true
  | _ :: _, [] => false
  | a :: as, b :: bs => a == b && leadMatch as bs

/-- Substring containment on character lists, recursing over the haystack. -/
def charsIncl : List Char → List Char → Bool
  | [], needle => needle.isEmpty
  | h :: t, needle => leadMatch needle (h :: t) || charsIncl t needle

/-- JavaScript `hay.includes(needle)`: substring containment. -/
def strIncludes (hay needle : String) : Bool :=
  charsIncl hay.toList needle.toList

/-- The shared audio element (`#meeting-audio-player`). -/
structure ElementState where
  src : String
  paused : Bool
  currentTime : Int
deriving DecidableEq, Repr

/-- A stored deactivation callback: the registering player's id and the
`isPlaying` value captured by the closure passed to `setActivePlayer`. -/
structure Callback where
  owner : Nat
  capturedPlaying : Bool
deriving DecidableEq, Repr

/-- The `audioManager` singleton's coordination fields. -/
structure CoordState where
  activeSource : String
  activePlayerCallback : Option Callback
deriving DecidableEq, Repr

/-- The shared mutable state: element plus coordinator. -/
structure Sys where
  el : ElementState
  coord : CoordState
deriving DecidableEq, Repr

/-- One mounted `AudioPlayer` instance: its props and refs. -/
structure Player where
  id : Nat
  src : String
  isPlaying : Bool
  sourceChanged : Bool
  isUpdatingSource : Bool
  canplayArmed : Bool
  animationRunning : Bool
  lastTimeUpdate : Int
  reportedPos : Int
deriving DecidableEq, Repr

/-- Observable actions of the handlers. -/
inductive Ev where
  | cbInvoked (owner : Nat) (isActiveArg : Bool)
  | playPause (owner : Nat)
  | playAttempt
  | toast (msg : String)
  | posUpdate (owner : Nat) (t : Int)
deriving DecidableEq, Repr

/-- Is this event an invocation of a stored deactivation callback? -/
def isCbInvoked : Ev → Bool
  | .cbInvoked _ _ => true
  | _ => false

/-- Outcome of the `audio.play()` call inside `playAudio`. -/
inductive PlayResult where
  | resolves
  | rejects (name : String)
  | throwsSync
deriving DecidableEq, Repr

/-- Run a stored deactivation callback.  Its body is the closure registered in
the play effect: `if (!isActive && isPlaying) onPlayPauseRef.current()`. -/
def invokeCallback (cb : Callback) (isActive : Bool) : List Ev :=
  Ev.cbInvoked cb.owner isActive ::
    (if !isActive && cb.capturedPlaying then [Ev.playPause cb.owner] else [])

/-- Model of `audioManager.setActivePlayer` (audio-player.tsx lines 38-46): notify the
previous player if the source differs, then store the new active pair. -/
def setActivePlayer (c : CoordState) (source : String) (cb : Callback) :
    CoordState × List Ev :=
  let evs :=
    if c.activeSource != source then
      match c.activePlayerCallback with
      | some old => invokeCallback old false
      | none => []
    else []
  ({ activeSource := source, activePlayerCallback := some cb }, evs)

/-- Model of `audioManager.cleanup` (lines 47-54): pause, reset the element's source,
clear the active pair. -/
def cleanup (s : Sys) : Sys :=
  ⟨{ s.el with paused := true, src := "" }, ⟨"", none⟩⟩

/-- Model of `updateAudioSource` (lines 360-388): guarded source swap.  Skipped while
`isUpdatingSourceRef` is set; otherwise, when the loaded source does not
already contain the new one, pause, clear, assign, and load.  The 100ms
delayed reset of `isUpdatingSourceRef` is `resetUpdatingFlag` below. -/
def updateAudioSource (el : ElementState) (p : Player) (newSrc : String) :
    ElementState × Player :=
  if p.isUpdatingSource then (el, p)
  else if el.src == "" || !strIncludes el.src newSrc then
    (⟨newSrc, true, 0⟩, { p with isUpdatingSource := true, sourceChanged := true })
  else (el, p)

/-- The `setTimeout(() => { isUpdatingSourceRef.current = false }, 100)` at
the end of `updateAudioSource`. -/
def resetUpdatingFlag (p : Player) : Player :=
  { p with isUpdatingSource := false }

/-- Model of `playAudio` (lines 331-357).  On a source mismatch it only swaps the
source (the canplay handler is expected to play later).  Otherwise, if the
element is paused, `audio.play()` is called; a rejected promise with name
`NotAllowedError` signals pause-intent upward and toasts, any other rejection
only logs, and a synchronous throw is caught and signals pause-intent.  The
coordinator fields are never touched here. -/
def playAudio (s : Sys) (p : Player) (r : PlayResult) : Sys × Player × List Ev :=
  if !strIncludes s.el.src p.src then
    let up := updateAudioSource s.el p p.src
    (⟨up.1, s.coord⟩, up.2, [])
  else if s.el.paused then
    match r with
    | .resolves => (⟨{ s.el with paused := false }, s.coord⟩, p, [Ev.playAttempt])
    | .rejects name =>
        (s, p,
          Ev.playAttempt ::
            (if name == "NotAllowedError" then
              [Ev.playPause p.id, Ev.toast ("Please click play to start audio")]
            else []))
    | .throwsSync => (s, p, [Ev.playAttempt, Ev.playPause p.id])
  else (s, p, [])

/-- Entering `waitForCanPlay` (lines 310-328): attach the `canplay` listener
(the 1000ms fallback timer is delivered later as a `WaitEv.timeoutFires`). -/
def waitForCanPlayStart (p : Player) : Player :=
  { p with canplayArmed := true }

/-- The fallback wait before playback is forced, in milliseconds (line 327). -/
def canPlayTimeoutMs : Nat := 1000

/-- The `canplay` handler (lines 311-315): if still attached, play, clear
`sourceChangedRef`, detach itself. -/
def canplayFires (s : Sys) (p : Player) (r : PlayResult) : Sys × Player × List Ev :=
  if p.canplayArmed then
    let res := playAudio s p r
    (res.1, { res.2.1 with sourceChanged := false, canplayArmed := false }, res.2.2)
  else (s, p, [])

/-- The fallback timer body (lines 320-327): if `sourceChangedRef` is still
set, clear it, play anyway, and detach the canplay listener. -/
def canplayTimeout (s : Sys) (p : Player) (r : PlayResult) : Sys × Player × List Ev :=
  if p.sourceChanged then
    let res := playAudio s { p with sourceChanged := false } r
    (res.1, { res.2.1 with canplayArmed := false }, res.2.2)
  else (s, p, [])

/-- External occurrences interleaved after a source swap: the ready-to-play
signal and the elapse of the 1000ms fallback timer. -/
inductive WaitEv where
  | canplay
  | timeoutFires
deriving DecidableEq, Repr

/-- Dispatch one occurrence to its handler. -/
def waitStep (s : Sys) (p : Player) (e : WaitEv) (r : PlayResult) :
    Sys × Player × List Ev :=
  match e with
  | .canplay => canplayFires s p r
  | .timeoutFires => canplayTimeout s p r

/-- Run a whole interleaving of ready/timeout occurrences. -/
def waitRun (s : Sys) (p : Player) : List (WaitEv × PlayResult) → Sys × Player × List Ev
  | [] => (s, p, [])
  | (e, r) :: rest =>
      let st := waitStep s p e r
      let k := waitRun st.1 st.2.1 rest
      (k.1, k.2.1, st.2.2 ++ k.2.2)

/-- The `isPlaying` branch of the play/pause effect (lines 249-270): register
as active, then either defer to `waitForCanPlay` (after a source change) or
play immediately, start the slider animation loop, and re-assert
`audioManager.activeSource = src`. -/
def playEffect (s : Sys) (p : Player) (r : PlayResult) : Sys × Player × List Ev :=
  let cb : Callback := ⟨p.id, p.isPlaying⟩
  let reg := setActivePlayer s.coord p.src cb
  let step :=
    if p.sourceChanged then (⟨s.el, reg.1⟩, waitForCanPlayStart p, ([] : List Ev))
    else playAudio ⟨s.el, reg.1⟩ p r
  (⟨step.1.el, { step.1.coord with activeSource := p.src }⟩,
    { step.2.1 with animationRunning := true },
    reg.2 ++ step.2.2)

/-- The `else` branch of the play/pause effect (lines 272-280): only when the
element is loaded with this player's source and this player is the active one,
pause, stop the animation loop, and clear the active pair. -/
def pauseEffect (s : Sys) (p : Player) : Sys × Player × List Ev :=
  if s.el.src != "" && strIncludes s.el.src p.src &&
      (s.coord.activeSource == p.src) then
    (⟨{ s.el with paused := true }, ⟨"", none⟩⟩,
      { p with animationRunning := false }, [])
  else (s, p, [])

/-- The whole play/pause effect body (lines 245-281), dispatching on the
`isPlaying` prop. -/
def playPauseEffect (s : Sys) (p : Player) (r : PlayResult) : Sys × Player × List Ev :=
  if p.isPlaying then playEffect s p r else pauseEffect s p

/-- The unmount cleanup effect (lines 220-242) together with the
animation-frame cleanup effect (lines 485-489): if this player is the active
one, pause the element, signal pause-intent upward, and clear the active
pair; in every case stop the slider animation loop. -/
def unmountCleanup (s : Sys) (p : Player) : Sys × Player × List Ev :=
  if s.coord.activeSource == p.src then
    (⟨{ s.el with paused := true }, ⟨"", none⟩⟩,
      { p with animationRunning := false }, [Ev.playPause p.id])
  else (s, { p with animationRunning := false }, [])

/-- Model of `handleSeek` (lines 492-506): only when the loaded source contains this
player's source, set the element position and forward it to the owning UI
(`setCurrentTime` + `onTimeUpdate`), with no throttling. -/
def handleSeek (el : ElementState) (p : Player) (v : Int) :
    ElementState × Player × List Ev :=
  if strIncludes el.src p.src then
    ({ el with currentTime := v }, { p with reportedPos := v },
      [Ev.posUpdate p.id v])
  else (el, p, [])

/-- The throttle window of the `timeupdate` listener, in milliseconds
(line 91). -/
def timeUpdateThreshold : Int := 250

/-- Model of `handleTimeUpdate` (lines 399-412): when more than `timeUpdateThreshold`
ms have passed since `lastTimeUpdateRef`, forward the current position if the
loaded source contains this player's source, and stamp `lastTimeUpdateRef`
with `now` in either case. -/
def handleTimeUpdate (el : ElementState) (p : Player) (now : Int) :
    Player × List Ev :=
  if now - p.lastTimeUpdate > timeUpdateThreshold then
    if strIncludes el.src p.src then
      ({ p with reportedPos := el.currentTime, lastTimeUpdate := now },
        [Ev.posUpdate p.id el.currentTime])
    else ({ p with lastTimeUpdate := now }, [])
  else (p, [])

/-- Model of `handleEnded` (lines 415-422): when the loaded source contains this
player's source, reset the reported position to zero, forward it, and signal
pause-intent upward. -/
def handleEnded (el : ElementState) (p : Player) : Player × List Ev :=
  if strIncludes el.src p.src then
    ({ p with reportedPos := 0 }, [Ev.posUpdate p.id 0, Ev.playPause p.id])
  else (p, [])

/-- The `error` listener (lines 393-396): it only toasts; no state of the
coordinator, the element or the player is touched. -/
def handleErrorEvent (s : Sys) (p : Player) (msg : String) :
    Sys × Player × List Ev :=
  (s, p, [Ev.toast ("Audio error: " ++ msg)])

/-- One iteration of the `requestAnimationFrame` sampling loop body
`updateSlider` (lines 462-471): while the element is playing this player's
source (containment test), forward the position and re-request a frame (the
returned Bool). -/
def updateSlider (el : ElementState) (p : Player) : Player × List Ev × Bool :=
  if !el.paused && strIncludes el.src p.src then
    ({ p with reportedPos := el.currentTime },
      [Ev.posUpdate p.id el.currentTime], true)
  else (p, [], false)

/-- A run of `timeupdate` events: each carries its `Date.now()` wall-clock
and the element state at that instant; the result collects the wall-clock
times at which a position update was forwarded to the owning UI. -/
def timeUpdateRun (p : Player) : List (Int × ElementState) → Player × List Int
  | [] => (p, [])
  | (now, el) :: rest =>
      let h1 := handleTimeUpdate el p now
      let k := timeUpdateRun h1.1 rest
      (k.1, (if h1.2.isEmpty then [] else [now]) ++ k.2)

/-- The coordinator operations claim C1 ranges over. -/
inductive CoordOp where
  | setActive (source : String) (cb : Callback)
  | cleanupOp
  | pauseOp (p : Player)
  | unmountOp (p : Player)
deriving Repr

/-- Apply one coordinator operation to the shared state. -/
def applyOp (s : Sys) : CoordOp → Sys
  | .setActive source cb => ⟨s.el, (setActivePlayer s.coord source cb).1⟩
  | .cleanupOp => cleanup s
  | .pauseOp p => (pauseEffect s p).1
  | .unmountOp p => (unmountCleanup s p).1

/-- Apply a sequence of coordinator operations. -/
def applyOps (s : Sys) (ops : List CoordOp) : Sys :=
  ops.foldl applyOp s

/-- Well-formed operation: players register real (nonempty) source URLs. -/
def wfOp : CoordOp → Bool
  | .setActive source _ => source != ""
  | _ => true

/-- The coordinator's pairing invariant: `activeSource` is empty exactly when
`activePlayerCallback` is empty. -/
def pairedB (c : CoordState) : Bool :=
  (c.activeSource == "") == c.activePlayerCallback.isNone

/-- A player counts as active when the coordinator's `activeSource` is its
(nonempty) source. -/
def isActivePlayer (c : CoordState) (p : Player) : Bool :=
  c.activeSource == p.src && p.src != ""

/-- The state right after module-load initialization: fresh element, nothing
active. -/
def initSys : Sys := ⟨⟨"", true, 0⟩, ⟨"", none⟩⟩

/-- All deactivation-callback invocations in a trace happen strictly before
every `audio.play()` call: from the first `playAttempt` onward there is no
`cbInvoked`. -/
def cbBeforePlay (tr : List Ev) : Bool :=
  (tr.dropWhile (fun e => !(e == Ev.playAttempt))).all (fun e => !isCbInvoked e)

/-- Concrete callback of a player with id 1. -/
def cbW1 : Callback := ⟨1, true⟩

/-- Concrete callback of a player with id 2. -/
def cbW2 : Callback := ⟨2, true⟩

/-- A mounted player for source "rec1". -/
def playerW1 : Player := ⟨1, "rec1", true, false, false, false, false, 0, 0⟩

/-- A mounted player for source "rec2". -/
def playerW2 : Player := ⟨2, "rec2", true, false, false, false, false, 0, 0⟩

/-- A concrete operation sequence: rec1 activates, pauses, rec2 activates,
unmounts, and the coordinator is cleaned up. -/
def opsW : List CoordOp :=
  [.setActive ("rec1") cbW1, .pauseOp playerW1, .setActive ("rec2") cbW2,
   .unmountOp playerW2, .cleanupOp]

/-- Shared state in which rec2 is loaded, playing, and active. -/
def sysW3 : Sys := ⟨⟨"https://cdn/rec2.mp3", false, 7⟩, ⟨"rec2", some cbW2⟩⟩

/-- A non-active player for source "rec1" whose UI just requested pause. -/
def playerW3 : Player := ⟨1, "rec1", false, false, false, false, true, 0, 0⟩

/-- Shared state in which rec1 is loaded, playing, and active. -/
def sysW4 : Sys := ⟨⟨"https://cdn/rec1.mp3", false, 5⟩, ⟨"rec1", some cbW1⟩⟩

/-- The active player for source "rec1", about to unmount. -/
def playerW4 : Player := ⟨1, "rec1", true, false, false, false, true, 0, 3⟩

/-- Shared state right after a source swap to rec1: loaded and paused. -/
def sysW5 : Sys := ⟨⟨"https://cdn/rec1.mp3", true, 0⟩, ⟨"rec1", some cbW1⟩⟩

/-- The player for rec1 waiting for the ready-to-play signal: source change
pending and the canplay listener attached. -/
def playerW5 : Player := ⟨1, "rec1", true, true, true, true, false, 0, 0⟩

/-- An interleaving in which the ready signal fires first and the fallback
timer elapses afterwards. -/
def traceW5 : List (WaitEv × PlayResult) := [(.canplay, .resolves), (.timeoutFires, .resolves)]

/-- Shared state in which rec1 is loaded, paused, and active. -/
def sysX7 : Sys := ⟨⟨"https://cdn/rec1.mp3", true, 0⟩, ⟨"rec1", some cbW1⟩⟩

/-- The active player for rec1 whose play attempt is about to fail. -/
def playerX7 : Player := ⟨1, "rec1", true, false, false, false, false, 0, 0⟩

/-! ## Theorems -/

theorem pairedB_applyOp (s : Sys) (op : CoordOp) (h : pairedB s.coord = true)
    (hw : wfOp op = true) : pairedB (applyOp s op).coord = true := by
  cases op with
  | setActive source cb =>
      simp only [wfOp, bne_iff_ne, ne_eq, decide_eq_true_eq] at hw
      simp [applyOp, setActivePlayer, pairedB, hw]
  | cleanupOp => simp [applyOp, cleanup, pairedB]
  | pauseOp p =>
      simp only [applyOp, pauseEffect]
      split
      · simp [pairedB]
      · exact h
  | unmountOp p =>
      simp only [applyOp, unmountCleanup]
      split
      · simp [pairedB]
      · exact h

theorem pairedB_applyOps (ops : List CoordOp) : ∀ (s : Sys),
    pairedB s.coord = true → ops.all wfOp = true →
    pairedB (applyOps s ops).coord = true := by
  induction ops with
  | nil => intro s h _; simpa [applyOps] using h
  | cons op rest ih =>
      intro s h hall
      simp only [List.all_cons, Bool.and_eq_true] at hall
      have h1 : pairedB (applyOp s op).coord = true :=
        pairedB_applyOp s op h hall.1
      simpa [applyOps] using ih (applyOp s op) h1 hall.2

/-- C1: starting from the freshly initialized coordinator, every sequence of
well-formed coordinator operations (setActivePlayer with a real source id,
cleanup, the player pause handler, the player unmount handler) keeps
`activeSource` and `activePlayerCallback` set or cleared together, and at
most one player (identified by its source) is active at any instant. -/
theorem claimC1_coordinator_invariant (ops : List CoordOp)
    (h : ops.all wfOp = true) :
    pairedB (applyOps initSys ops).coord = true ∧
    (∀ p q : Player, isActivePlayer (applyOps initSys ops).coord p = true →
      isActivePlayer (applyOps initSys ops).coord q = true → p.src = q.src) := by
  refine ⟨pairedB_applyOps ops initSys (by simp [initSys, pairedB]) h, ?_⟩
  intro p q hp hq
  simp only [isActivePlayer, Bool.and_eq_true, beq_iff_eq] at hp hq
  rw [← hp.1, ← hq.1]

theorem claimC1_witness :
    pairedB (applyOps initSys opsW).coord = true ∧
    (∀ p q : Player, isActivePlayer (applyOps initSys opsW).coord p = true →
      isActivePlayer (applyOps initSys opsW).coord q = true → p.src = q.src) :=
  claimC1_coordinator_invariant opsW (by decide)

/-- C3: a pause request from a player whose source is not the coordinator's
active source leaves the shared element and the coordinator's fields (and the
player itself) unchanged, and emits nothing. -/
theorem claimC3_pause_nonactive_noop (s : Sys) (p : Player)
    (hplay : p.isPlaying = false)
    (h : s.coord.activeSource ≠ p.src) :
    playPauseEffect s p PlayResult.resolves = (s, p, []) := by
  have hb : (s.coord.activeSource == p.src) = false := by
    simpa using h
  simp [playPauseEffect, hplay, pauseEffect, hb]

theorem claimC3_witness : playPauseEffect sysW3 playerW3 PlayResult.resolves
    = (sysW3, playerW3, []) :=
  claimC3_pause_nonactive_noop sysW3 playerW3 (by decide) (by decide)

/-- C4: unmounting the currently active player pauses the shared element,
signals pause-intent upward, and clears the coordinator's active pair; and
unmounting any player, active or not, stops its position-reporting
animation loop. -/
theorem claimC4_unmount_active (s : Sys) (p : Player)
    (h : s.coord.activeSource = p.src) :
    (unmountCleanup s p).1.el.paused = true ∧
    (unmountCleanup s p).1.coord.activeSource = "" ∧
    (unmountCleanup s p).1.coord.activePlayerCallback = none ∧
    (unmountCleanup s p).2.2 = [Ev.playPause p.id] ∧
    (∀ (t : Sys) (q : Player), (unmountCleanup t q).2.1.animationRunning = false) := by
  have hb : (s.coord.activeSource == p.src) = true := by simpa using h
  refine ⟨?_, ?_, ?_, ?_, ?_⟩
  · simp [unmountCleanup, hb]
  · simp [unmountCleanup, hb]
  · simp [unmountCleanup, hb]
  · simp [unmountCleanup, hb]
  · intro t q
    simp only [unmountCleanup]
    split <;> simp

theorem claimC4_witness :
    (unmountCleanup sysW4 playerW4).1.el.paused = true ∧
    (unmountCleanup sysW4 playerW4).1.coord.activeSource = "" ∧
    (unmountCleanup sysW4 playerW4).1.coord.activePlayerCallback = none ∧
    (unmountCleanup sysW4 playerW4).2.2 = [Ev.playPause playerW4.id] ∧
    (∀ (t : Sys) (q : Player), (unmountCleanup t q).2.1.animationRunning = false) :=
  claimC4_unmount_active sysW4 playerW4 (by decide)

theorem playAudio_coord (s : Sys) (p : Player) (r : PlayResult) :
    (playAudio s p r).1.coord = s.coord := by
  unfold playAudio
  split
  · rfl
  · split
    · cases r <;> rfl
    · rfl

theorem playAudio_no_cb (s : Sys) (p : Player) (r : PlayResult) :
    ((playAudio s p r).2.2).all (fun e => !isCbInvoked e) = true := by
  unfold playAudio
  split
  · rfl
  · split
    · cases r with
      | resolves => rfl
      | rejects name =>
          by_cases h : (name == "NotAllowedError") = true <;>
            simp [h, isCbInvoked]
      | throwsSync => rfl
    · rfl

theorem setActivePlayer_no_play (c : CoordState) (source : String) (cb : Callback) :
    ((setActivePlayer c source cb).2).all (fun e => !(e == Ev.playAttempt)) = true := by
  unfold setActivePlayer invokeCallback
  rcases c.activePlayerCallback with _ | old <;>
    by_cases hs : (c.activeSource != source) = true <;>
      simp [hs]

theorem setActivePlayer_cb_count (c : CoordState) (source : String) (cb : Callback) :
    ((setActivePlayer c source cb).2).countP isCbInvoked =
      (if c.activeSource != source && c.activePlayerCallback.isSome then 1 else 0) := by
  unfold setActivePlayer invokeCallback
  rcases h : c.activePlayerCallback with _ | old <;>
    by_cases hs : (c.activeSource != source) = true <;>
      simp [h, hs, isCbInvoked, List.countP_cons]

theorem setActivePlayer_cb_filter (c : CoordState) (source : String) (cb : Callback) :
    ((setActivePlayer c source cb).2).filter isCbInvoked =
      (match c.activePlayerCallback with
       | some old => if c.activeSource != source then [Ev.cbInvoked old.owner false] else []
       | none => []) := by
  unfold setActivePlayer invokeCallback
  rcases h : c.activePlayerCallback with _ | old <;>
    by_cases hs : (c.activeSource != source) = true <;>
      simp [h, hs, isCbInvoked]

theorem dropWhile_all_of_all {α : Type} (q : α → Bool) (pr : α → Bool)
    (l : List α) (h : l.all q = true) : (l.dropWhile pr).all q = true := by
  induction l with
  | nil => rfl
  | cons a t ih =>
      simp only [List.all_cons, Bool.and_eq_true] at h
      by_cases hp : pr a = true
      · simpa [List.dropWhile, hp] using ih h.2
      · simp only [List.dropWhile, hp]
        simp [List.all_cons, h.1, h.2]

theorem cbBeforePlay_append (l1 l2 : List Ev)
    (h1 : l1.all (fun e => !(e == Ev.playAttempt)) = true)
    (h2 : l2.all (fun e => !isCbInvoked e) = true) :
    cbBeforePlay (l1 ++ l2) = true := by
  unfold cbBeforePlay
  induction l1 with
  | nil =>
      simpa using dropWhile_all_of_all (fun e => !isCbInvoked e)
        (fun e => !(e == Ev.playAttempt)) l2 h2
  | cons a t ih =>
      simp only [List.all_cons, Bool.and_eq_true] at h1
      simp only [List.cons_append, List.dropWhile, h1.1]
      exact ih h1.2

/-- C2: in the play effect, when another source is active and a deactivation
callback is stored, that stored callback is invoked exactly once with the
"deactivated" (`false`) value; every such invocation happens before any
`audio.play()` call; registering the already-active source never invokes the
stored callback (the count is 0 in that case); and afterwards the
coordinator's active pair is this player's source and callback. -/
theorem claimC2_deactivation_order (s : Sys) (p : Player) (r : PlayResult) :
    ((playEffect s p r).2.2).countP isCbInvoked =
      (if s.coord.activeSource != p.src && s.coord.activePlayerCallback.isSome
        then 1 else 0) ∧
    ((playEffect s p r).2.2).filter isCbInvoked =
      (match s.coord.activePlayerCallback with
       | some old =>
           if s.coord.activeSource != p.src then [Ev.cbInvoked old.owner false]
           else []
       | none => []) ∧
    cbBeforePlay ((playEffect s p r).2.2) = true ∧
    (playEffect s p r).1.coord.activeSource = p.src ∧
    (playEffect s p r).1.coord.activePlayerCallback = some ⟨p.id, p.isPlaying⟩ := by
  have hstep :
      ((playEffect s p r).2.2) =
        (setActivePlayer s.coord p.src ⟨p.id, p.isPlaying⟩).2 ++
          (if p.sourceChanged then ([] : List Ev)
           else (playAudio ⟨s.el, (setActivePlayer s.coord p.src ⟨p.id, p.isPlaying⟩).1⟩ p r).2.2) := by
    simp only [playEffect]
    split <;> rfl
  have hstepcb :
      (if p.sourceChanged then ([] : List Ev)
        else (playAudio ⟨s.el, (setActivePlayer s.coord p.src ⟨p.id, p.isPlaying⟩).1⟩ p r).2.2).all
        (fun e => !isCbInvoked e) = true := by
    split
    · rfl
    · exact playAudio_no_cb _ _ _
  refine ⟨?_, ?_, ?_, ?_, ?_⟩
  · rw [hstep, List.countP_append]
    have h0 : (if p.sourceChanged then ([] : List Ev)
        else (playAudio ⟨s.el, (setActivePlayer s.coord p.src ⟨p.id, p.isPlaying⟩).1⟩ p r).2.2).countP
        isCbInvoked = 0 := by
      rw [List.countP_eq_zero]
      intro e he
      have := List.all_eq_true.mp hstepcb e he
      simpa using this
    rw [h0, setActivePlayer_cb_count]
    simp
  · rw [hstep, List.filter_append]
    have h0 : (if p.sourceChanged then ([] : List Ev)
        else (playAudio ⟨s.el, (setActivePlayer s.coord p.src ⟨p.id, p.isPlaying⟩).1⟩ p r).2.2).filter
        isCbInvoked = [] := by
      rw [List.filter_eq_nil_iff]
      intro e he
      have := List.all_eq_true.mp hstepcb e he
      simpa using this
    rw [h0, setActivePlayer_cb_filter]
    simp
  · rw [hstep]
    exact cbBeforePlay_append _ _ (setActivePlayer_no_play _ _ _) hstepcb
  · simp only [playEffect]
  · simp only [playEffect]
    split
    · rfl
    · rw [show (playAudio ⟨s.el, (setActivePlayer s.coord p.src ⟨p.id, p.isPlaying⟩).1⟩ p r).1.coord.activePlayerCallback =
          ((setActivePlayer s.coord p.src ⟨p.id, p.isPlaying⟩).1).activePlayerCallback from
            congrArg CoordState.activePlayerCallback (playAudio_coord _ _ _)]
      rfl

theorem waitRun_dead (s : Sys) (p : Player) (tr : List (WaitEv × PlayResult))
    (h1 : p.canplayArmed = false) (h2 : p.sourceChanged = false) :
    waitRun s p tr = (s, p, []) := by
  induction tr with
  | nil => rfl
  | cons er rest ih =>
      rcases er with ⟨e, r⟩
      have hst : waitStep s p e r = (s, p, []) := by
        cases e <;> simp [waitStep, canplayFires, canplayTimeout, h1, h2]
      simp [waitRun, hst, ih]

theorem playAudio_attempt_once (s : Sys) (p : Player) (r : PlayResult)
    (hm : strIncludes s.el.src p.src = true) (hp : s.el.paused = true) :
    ((playAudio s p r).2.2).count Ev.playAttempt = 1 ∧
    (playAudio s p r).2.1 = p := by
  cases r with
  | resolves => simp [playAudio, hm, hp]
  | rejects name =>
      by_cases hn : (name == "NotAllowedError") = true <;>
        simp [playAudio, hm, hp, hn, List.count_cons]
  | throwsSync => simp [playAudio, hm, hp, List.count_cons]

/-- C5: after a source swap (canplay listener armed, `sourceChangedRef` set,
the swapped source loaded and paused), every interleaving of the ready
signal and the (exactly-once) 1000ms fallback timer produces exactly one
`audio.play()` attempt: ready before timeout, ready after timeout, or ready
never — a late ready signal causes no second attempt, and if ready never
fires, the timer's unconditional attempt is the one attempt. -/
theorem claimC5_play_attempted_once (s : Sys) (p : Player)
    (tr : List (WaitEv × PlayResult))
    (hm : strIncludes s.el.src p.src = true)
    (hp : s.el.paused = true)
    (hchanged : p.sourceChanged = true)
    (harmed : p.canplayArmed = true)
    (htimer : (tr.map Prod.fst).count WaitEv.timeoutFires = 1) :
    ((waitRun s p tr).2.2).count Ev.playAttempt = 1 := by
  cases tr with
  | nil => simp at htimer
  | cons er rest =>
      rcases er with ⟨e, r⟩
      have hcount : ((waitStep s p e r).2.2).count Ev.playAttempt = 1 ∧
          (waitStep s p e r).2.1.canplayArmed = false ∧
          (waitStep s p e r).2.1.sourceChanged = false := by
        cases e with
        | canplay =>
            have h := playAudio_attempt_once s p r hm hp
            refine ⟨?_, ?_, ?_⟩ <;>
              simp [waitStep, canplayFires, harmed, h.1, h.2]
        | timeoutFires =>
            have h := playAudio_attempt_once s { p with sourceChanged := false } r hm hp
            refine ⟨?_, ?_, ?_⟩ <;>
              simp [waitStep, canplayTimeout, hchanged, h.1, h.2]
      have hdead := waitRun_dead (waitStep s p e r).1 (waitStep s p e r).2.1 rest
        hcount.2.1 hcount.2.2
      simp [waitRun, hdead, hcount.1]

theorem claimC5_witness :
    ((waitRun sysW5 playerW5 traceW5).2.2).count Ev.playAttempt = 1 :=
  claimC5_play_attempted_once sysW5 playerW5 traceW5 (by decide) (by decide)
    (by decide) (by decide) (by decide)

/-- C6: a seek on a player whose source is not contained in the element's
loaded URL is a no-op (element, player and forwarded updates unchanged); a
seek on a matching player sets the element's position to the requested value
and forwards it to the owning UI at once — the forwarded events do not
depend on the throttle clock `lastTimeUpdateRef`. -/
theorem claimC6_seek (el : ElementState) (p : Player) (v t : Int) :
    (strIncludes el.src p.src = false → handleSeek el p v = (el, p, [])) ∧
    (strIncludes el.src p.src = true →
      (handleSeek el p v).1.currentTime = v ∧
      (handleSeek el p v).2.1.reportedPos = v ∧
      (handleSeek el p v).2.2 = [Ev.posUpdate p.id v]) ∧
    (handleSeek el { p with lastTimeUpdate := t } v).2.2
      = (handleSeek el p v).2.2 := by
  refine ⟨fun h => by simp [handleSeek, h], fun h => by simp [handleSeek, h], ?_⟩
  by_cases h : strIncludes el.src p.src = true <;> simp [handleSeek, h]

/-- C7 fails as stated: a playback error that is not an autoplay-policy
rejection (here an `AbortError` promise rejection) leaves the coordinator's
`activeSource` and `activePlayerCallback` still referencing the failing
player. -/
theorem claimC7_counterexample :
    (playAudio sysX7 playerX7 (PlayResult.rejects ("AbortError"))).1.coord.activeSource
        = playerX7.src ∧
    (playAudio sysX7 playerX7 (PlayResult.rejects ("AbortError"))).1.coord.activePlayerCallback
        = some cbW1 ∧
    cbW1.owner = playerX7.id := by decide

/-- C7 amended: no error path of a play attempt (promise rejection of any
name, synchronous throw, or the `error`-event listener) touches the
coordinator's fields at all — ownership is retained, not released; yet a
subsequent `setActivePlayer` by any other player still succeeds
unconditionally, installing the new active pair. -/
theorem claimC7_amended_error_paths (s : Sys) (p : Player) (r : PlayResult)
    (m other : String) (ocb : Callback) :
    (playAudio s p r).1.coord = s.coord ∧
    (handleErrorEvent s p m).1 = s ∧
    (setActivePlayer (playAudio s p r).1.coord other ocb).1.activeSource = other ∧
    (setActivePlayer (playAudio s p r).1.coord other ocb).1.activePlayerCallback
      = some ocb :=
  ⟨playAudio_coord s p r, rfl, rfl, rfl⟩

/-- C8: an autoplay-policy rejection (`NotAllowedError`) of the play attempt
signals pause-intent to the owning UI (reverting `desiredPlaying`), surfaces
a user-visible toast, and leaves the whole shared state (element and
coordinator) intact — the rejection is handled, not propagated. -/
theorem claimC8_autoplay_rejection (s : Sys) (p : Player)
    (hm : strIncludes s.el.src p.src = true) (hp : s.el.paused = true) :
    (playAudio s p (PlayResult.rejects ("NotAllowedError"))).2.2 =
      [Ev.playAttempt, Ev.playPause p.id,
       Ev.toast ("Please click play to start audio")] ∧
    (playAudio s p (PlayResult.rejects ("NotAllowedError"))).1 = s ∧
    (playAudio s p (PlayResult.rejects ("NotAllowedError"))).2.1 = p := by
  simp [playAudio, hm, hp]

theorem claimC8_witness :
    (playAudio sysW5 playerW5 (PlayResult.rejects ("NotAllowedError"))).2.2 =
      [Ev.playAttempt, Ev.playPause playerW5.id,
       Ev.toast ("Please click play to start audio")] ∧
    (playAudio sysW5 playerW5 (PlayResult.rejects ("NotAllowedError"))).1 = sysW5 ∧
    (playAudio sysW5 playerW5 (PlayResult.rejects ("NotAllowedError"))).2.1 = playerW5 :=
  claimC8_autoplay_rejection sysW5 playerW5 (by decide) (by decide)
theorem timeUpdateRun_lb (evs : List (Int × ElementState)) : ∀ (p : Player),
    ∀ t ∈ (timeUpdateRun p evs).2, p.lastTimeUpdate + timeUpdateThreshold < t := by
  induction evs with
  | nil => intro p t ht; simp [timeUpdateRun] at ht
  | cons ne rest ih =>
      rcases ne with ⟨now, el⟩
      intro p t ht
      have hth : timeUpdateThreshold = 250 := rfl
      by_cases hg : now - p.lastTimeUpdate > timeUpdateThreshold
      · by_cases hm : strIncludes el.src p.src = true
        · simp [timeUpdateRun, handleTimeUpdate, hg, hm] at ht
          rcases ht with h | h
          · omega
          · have hlb := ih { p with reportedPos := el.currentTime, lastTimeUpdate := now } t h
            simp only at hlb
            omega
        · simp [timeUpdateRun, handleTimeUpdate, hg, hm] at ht
          have hlb := ih { p with lastTimeUpdate := now } t ht
          simp only at hlb
          omega
      · simp [timeUpdateRun, handleTimeUpdate, hg] at ht
        exact ih p t ht

/-- C9: along any run of `timeupdate` events, any two consecutive position
updates forwarded by the throttled listener are separated by strictly more
than the 250ms threshold of wall-clock time. -/
theorem claimC9_throttle_spacing (p : Player) (evs : List (Int × ElementState)) :
    List.Chain' (fun a b => a + timeUpdateThreshold < b) (timeUpdateRun p evs).2 := by
  induction evs generalizing p with
  | nil => simp [timeUpdateRun]
  | cons ne rest ih =>
      rcases ne with ⟨now, el⟩
      by_cases hg : now - p.lastTimeUpdate > timeUpdateThreshold
      · by_cases hm : strIncludes el.src p.src = true
        · have hred : (timeUpdateRun p ((now, el) :: rest)).2
              = now :: (timeUpdateRun
                  { p with reportedPos := el.currentTime, lastTimeUpdate := now } rest).2 := by
            simp [timeUpdateRun, handleTimeUpdate, hg, hm]
          rw [hred, List.chain'_cons']
          refine ⟨?_, ih _⟩
          intro b hb
          have hbmem : b ∈ (timeUpdateRun
              { p with reportedPos := el.currentTime, lastTimeUpdate := now } rest).2 :=
            List.mem_of_mem_head? hb
          have hlb := timeUpdateRun_lb rest
            { p with reportedPos := el.currentTime, lastTimeUpdate := now } b hbmem
          have hth : timeUpdateThreshold = 250 := rfl
          simp only at hlb
          omega
        · have hred : (timeUpdateRun p ((now, el) :: rest)).2
              = (timeUpdateRun { p with lastTimeUpdate := now } rest).2 := by
            simp [timeUpdateRun, handleTimeUpdate, hg, hm]
          rw [hred]
          exact ih _
      · have hred : (timeUpdateRun p ((now, el) :: rest)).2
            = (timeUpdateRun p rest).2 := by
          simp [timeUpdateRun, handleTimeUpdate, hg]
        rw [hred]
        exact ih p

theorem strIncludes_empty_needle (u : String) : strIncludes u ("") = true := by
  have hall : ∀ l : List Char, charsIncl l [] = true := by
    intro l
    induction l with
    | nil => rfl
    | cons h t ih => simp [charsIncl, leadMatch, ih]
  exact hall u.toList

/-- C10: every "source matches" guard of the player (play, seek, ended,
throttled time updates, the sampling loop) is substring containment of the
player's sourceId in the element's loaded URL, not equality.  The empty
sourceId is contained in every loaded URL, and any player whose sourceId is
a strict substring of the loaded URL (so not the URL itself) passes all of
these guards: it can seek the element and it receives position and ended
updates for a source it does not own, and its play attempt plays the
element rather than swapping the source. -/
theorem claimC10_substring_guards (u : String) (el : ElementState)
    (c : CoordState) (p : Player) (v now : Int) :
    strIncludes u ("") = true ∧
    (strIncludes el.src p.src = true → p.src ≠ el.src →
      ((handleSeek el p v).1.currentTime = v ∧
        (handleSeek el p v).2.2 = [Ev.posUpdate p.id v]) ∧
      ((handleEnded el p).1.reportedPos = 0 ∧
        (handleEnded el p).2 = [Ev.posUpdate p.id 0, Ev.playPause p.id]) ∧
      (now - p.lastTimeUpdate > timeUpdateThreshold →
        (handleTimeUpdate el p now).2 = [Ev.posUpdate p.id el.currentTime]) ∧
      (el.paused = false →
        (updateSlider el p).2 = ([Ev.posUpdate p.id el.currentTime], true)) ∧
      (el.paused = true →
        (playAudio ⟨el, c⟩ p PlayResult.resolves).2.2 = [Ev.playAttempt])) := by
  refine ⟨strIncludes_empty_needle u, fun hm _ => ⟨?_, ?_, ?_, ?_, ?_⟩⟩
  · simp [handleSeek, hm]
  · simp [handleEnded, hm]
  · intro hg; simp [handleTimeUpdate, hg, hm]
  · intro hp; simp [updateSlider, hm, hp]
  · intro hp; simp [playAudio, hm, hp]
